import Mathlib

/-!
Verification of the two screen components of the repository:
the infinite-scrolling feed loader (`src/components/InfiniteScroller.vue`)
and the GPS path recorder (`src/components/GpsTracker.vue`).

The feed loader is embedded as an explicit transition system over the
component's reactive state, driven by the events that can occur on the
single-threaded browser event loop: scroll events, sentinel
intersection-observer callbacks, the direct `loadContent()` call made in
`onMounted`, and completion of an in-flight HTTP request (success or
transport failure).  The GPS recorder's coordinate filtering and session
start are embedded as functions over real numbers (the Haversine distance
uses real trigonometry, mirroring the floating-point formula).
-/

namespace PB

/- ---------------------------------------------------------------------
   Feed loader: data model (InfiniteScroller.vue)
--------------------------------------------------------------------- -/

/-- `interface MediaItem { media_filename: string }`. -/
structure MediaItem where
  media_filename : String
  deriving DecidableEq

/-- `interface ContentItem { title; description; medias? }`.
The optional `medias` array is modelled as a list (absent = `[]`). -/
structure ContentItem where
  title : String
  description : String
  medias : List MediaItem
  deriving DecidableEq

/-- The query parameters built inside `loadContent`.  `tag := none`
models the key being absent from the `params` record. -/
structure Params where
  refresh : Nat
  type : Nat
  auth : Nat
  per_page : Nat
  tag : Option String
  deriving DecidableEq

/-- The reactive state of the InfiniteScroller component, together with
bookkeeping that records the externally observable actions: the requests
issued so far (`requests`, oldest first), the number of requests
currently in flight (`inFlight`), and the console log. -/
structure FeedState where
  content : List ContentItem
  nextTag : Option String
  isLoading : Bool
  inFlight : Nat
  requests : List Params
  log : List String
  deriving DecidableEq

/-- Outcome of an in-flight request: `success items hdr` carries the
response body (`response.data || []`) and the raw `tag` response header
(`none` when the header is absent), or a transport `failure`
(the `axios.get` promise rejected). -/
inductive FetchResult where
  | success (items : List ContentItem) (hdr : Option String)
  | failure
  deriving DecidableEq

/-- An event on the single-threaded event loop that can reach the
component: a window scroll event (carrying `window.scrollY`,
`window.innerHeight`, `document.body.scrollHeight`), an
IntersectionObserver callback on the sentinel, the direct
`loadContent()` call from `onMounted`, or completion of the in-flight
request. -/
inductive FeedEvent where
  | scroll (scrollTop viewportHeight fullHeight : ℚ)
  | sentinel (visible : Bool)
  | mountLoad
  | complete (r : FetchResult)
  deriving DecidableEq

/-- `response.headers["tag"] || null`: a missing header or an empty
string collapses to `null` (JavaScript falsiness). -/
def normalizeTag : Option String → Option String
  | some t => if t = "" then none else some t
  | none => none

/-- The `params` record built in `loadContent`:
`{refresh: 1, type: 0, auth: 0, per_page: 8}` and
`if (nextTag.value) params.tag = nextTag.value` — the `tag` key is added
only when the cursor is truthy (non-null and non-empty). -/
def mkParams (cursor : Option String) : Params :=
  { refresh := 1, type := 0, auth := 0, per_page := 8,
    tag := match cursor with
           | some t => if t = "" then none else some t
           | none => none }

/-- The synchronous prefix of `loadContent()` up to and including issuing
the HTTP request: the guard `if (isLoading.value || nextTag.value === "")
return;`, then `isLoading.value = true`, the fetch log line, and the
`axios.get` call (recorded in `requests` / `inFlight`). -/
def loadContentStep (s : FeedState) : FeedState :=
  if s.isLoading = true ∨ s.nextTag = some "" then s
  else
    { s with isLoading := true,
             inFlight := s.inFlight + 1,
             requests := s.requests ++ [mkParams s.nextTag],
             log := s.log ++ ["[loadContent] Fetching data..."] }

/-- `handleScroll`: early return when busy or the cursor is `null`;
otherwise compute `scrolledRatio = (scrollTop + viewportHeight) /
fullHeight` and invoke `loadContent()` once the ratio reaches 0.5. -/
def handleScroll (scrollTop viewportHeight fullHeight : ℚ) (s : FeedState) : FeedState :=
  if s.isLoading = true ∨ s.nextTag = none then s
  else if (1 : ℚ) / 2 ≤ (scrollTop + viewportHeight) / fullHeight then
    loadContentStep { s with log := s.log ++ ["[scroll] Midway preload triggered"] }
  else s

/-- The IntersectionObserver callback installed on the sentinel:
`if (visible && !isLoading.value && nextTag.value !== null) loadContent()`. -/
def sentinelCallback (visible : Bool) (s : FeedState) : FeedState :=
  if visible = true ∧ s.isLoading = false ∧ s.nextTag ≠ none then
    loadContentStep { s with log := s.log ++ ["[observer] Sentinel triggered load"] }
  else s

/-- The continuation of `loadContent()` that runs when the awaited
request settles.  On success: append non-empty bodies to `content` and
take the (normalized) `tag` header as the new cursor, or force the
cursor to `null` on an empty body.  On failure: log the error.  In all
cases the `finally` block clears `isLoading`.  A `complete` event with
no request in flight cannot occur and is modelled as a no-op. -/
def completeFetch (r : FetchResult) (s : FeedState) : FeedState :=
  if s.inFlight = 0 then s
  else
    match r with
    | .success items hdr =>
        let s1 :=
          if items = [] then
            { s with nextTag := none,
                     log := s.log ++
                       ["[loadContent] Received " ++ toString items.length ++ " items",
                        "[loadContent] No more content available."] }
          else
            { s with content := s.content ++ items,
                     nextTag := normalizeTag hdr,
                     log := s.log ++
                       ["[loadContent] Received " ++ toString items.length ++ " items"] }
        { s1 with isLoading := false, inFlight := s.inFlight - 1,
                  log := s1.log ++
                    ["[loadContent] Total content items: " ++ toString s1.content.length] }
    | .failure =>
        { s with isLoading := false, inFlight := s.inFlight - 1,
                 log := s.log ++ ["[loadContent] Error fetching content"] }

/-- One step of the event loop. -/
def feedStep (s : FeedState) (e : FeedEvent) : FeedState :=
  match e with
  | .scroll st vh fh => handleScroll st vh fh s
  | .sentinel v => sentinelCallback v s
  | .mountLoad => loadContentStep s
  | .complete r => completeFetch r s

/-- Run a sequence of event-loop events. -/
def feedRun (s : FeedState) (es : List FeedEvent) : FeedState :=
  es.foldl feedStep s

/-- The component's state right after setup, before `onMounted` runs. -/
def initFeedState : FeedState :=
  { content := [], nextTag := none, isLoading := false,
    inFlight := 0, requests := [], log := [] }

/-- A state the component can actually be in. -/
def Reachable (s : FeedState) : Prop :=
  ∃ es, feedRun initFeedState es = s

/-- Scroll and sentinel-intersection events (the two fetch triggers). -/
def FeedEvent.isTrigger : FeedEvent → Bool
  | .scroll _ _ _ => true
  | .sentinel _ => true
  | _ => false

/-- Events that try to invoke the fetch: the two triggers plus the
direct `loadContent()` call from `onMounted`. -/
def FeedEvent.isFetchAttempt : FeedEvent → Bool
  | .scroll _ _ _ => true
  | .sentinel _ => true
  | .mountLoad => true
  | .complete _ => false

/-- The body chunk a single event contributes to `content`: a `complete`
event consuming an in-flight successful response contributes its body
when non-empty; every other event contributes nothing. -/
def responseChunk (s : FeedState) (e : FeedEvent) : List ContentItem :=
  match e with
  | .complete (.success items _) =>
      if s.inFlight = 0 then [] else if items = [] then [] else items
  | _ => []

/-- The concatenation, in arrival order, of the non-empty bodies of the
responses consumed along an event sequence. -/
def consumedItems : FeedState → List FeedEvent → List ContentItem
  | _, [] => []
  | s, e :: es => responseChunk s e ++ consumedItems (feedStep s e) es

/-- Single-flight invariant: at most one request in flight, and the busy
flag is set exactly while one is. -/
def GoodState (s : FeedState) : Prop :=
  s.inFlight ≤ 1 ∧ (s.isLoading = true ↔ s.inFlight = 1)

/- ---------------------------------------------------------------------
   GPS path recorder: data model (GpsTracker.vue)
--------------------------------------------------------------------- -/

/-- `interface Coordinate { lat; lng; timestamp; isManual? }`.
`timestamp` is `Date.now()` in milliseconds. -/
structure Coordinate where
  lat : ℝ
  lng : ℝ
  timestamp : ℝ
  isManual : Bool

/-- JavaScript's `Math.atan2(y, x)` over the reals (ignoring signed
zeros): the angle of the point `(x, y)` in `(-π, π]`. -/
noncomputable def atan2 (y x : ℝ) : ℝ :=
  if 0 < x then Real.arctan (y / x)
  else if x < 0 then
    (if 0 ≤ y then Real.arctan (y / x) + Real.pi
     else Real.arctan (y / x) - Real.pi)
  else
    (if 0 < y then Real.pi / 2
     else if y < 0 then -(Real.pi / 2)
     else 0)

/-- The intermediate `a` of `getDistance`:
`sin(Δφ/2)² + cos(φ1)·cos(φ2)·sin(Δλ/2)²` with
`φᵢ = latᵢ·π/180`, `Δφ = (lat2-lat1)·π/180`, `Δλ = (lng2-lng1)·π/180`. -/
noncomputable def haversineA (c1 c2 : Coordinate) : ℝ :=
  Real.sin ((c2.lat - c1.lat) * Real.pi / 180 / 2) ^ 2 +
    Real.cos (c1.lat * Real.pi / 180) * Real.cos (c2.lat * Real.pi / 180) *
      Real.sin ((c2.lng - c1.lng) * Real.pi / 180 / 2) ^ 2

/-- `getDistance`: Haversine great-circle distance in metres,
`R · c` with `R = 6371e3` and `c = 2 · atan2(√a, √(1-a))`. -/
noncomputable def getDistance (c1 c2 : Coordinate) : ℝ :=
  6371000 *
    (2 * atan2 (Real.sqrt (haversineA c1 c2)) (Real.sqrt (1 - haversineA c1 c2)))

section
open Classical

/-- `recordCoordinate(pos, isManual)`: builds the new coordinate from
the position fix and `Date.now()` (the `now` argument), applies the
outlier filter when a previous recorded sample exists and the sample is
not manual (`if (lastCoord && !isManual)`), and otherwise appends the
sample and sets the status message.  Returns the new `recordedPath`
together with the status `message`. -/
noncomputable def recordCoordinate (path : List Coordinate) (lat lng now : ℝ)
    (isManual : Bool) : List Coordinate × String :=
  (path.getLast?).elim
    (path ++ [⟨lat, lng, now, isManual⟩],
      if isManual then "Manual marker dropped" else "Path recorded")
    (fun lastCoord =>
      if isManual = false then
        if getDistance lastCoord ⟨lat, lng, now, isManual⟩ /
              ((now - lastCoord.timestamp) / 1000) > 50 ∧
            getDistance lastCoord ⟨lat, lng, now, isManual⟩ > 50 then
          (path, "Skipped GPS outlier")
        else
          (path ++ [⟨lat, lng, now, isManual⟩], "Path recorded")
      else
        (path ++ [⟨lat, lng, now, isManual⟩], "Manual marker dropped"))

end

/-- The GpsTracker component state touched by `startTracking`. -/
structure GpsState where
  recordedPath : List Coordinate
  isRecording : Bool
  hasPathLayer : Bool
  watchActive : Bool
  message : String

/-- `startTracking()`: no-op while already recording; otherwise clears
the recorded path, removes the previous path layer, and (when the
platform exposes geolocation) subscribes to the position stream and
enters the recording state. -/
def startTracking (geoSupported : Bool) (s : GpsState) : GpsState :=
  if s.isRecording = true then s
  else
    let s1 : GpsState := { s with recordedPath := [], hasPathLayer := false }
    if geoSupported then
      { s1 with watchActive := true, isRecording := true,
                message := "Tracking started. Recording path..." }
    else
      { s1 with message := "Geolocation not supported by this browser." }

/- ---------------------------------------------------------------------
   Concrete states used to evaluate the theorems on closed inputs
--------------------------------------------------------------------- -/

/-- A sample content item as the API would return it. -/
def demoItem (n : Nat) : ContentItem :=
  { title := "t" ++ toString n, description := "d", medias := [] }

/-- A full first page of `per_page = 8` items. -/
def items8 : List ContentItem := (List.range 8).map demoItem

/-- State after the `onMounted` load and a first response of 8 items
whose `tag` header was `"c1"`. -/
def sAfterFirst : FeedState :=
  feedRun initFeedState
    [FeedEvent.mountLoad, FeedEvent.complete (FetchResult.success items8 (some "c1"))]

/-- State after the `onMounted` load, while its request is in flight. -/
def sInFlight : FeedState := feedRun initFeedState [FeedEvent.mountLoad]

/-- State after the `onMounted` load answered with an empty body:
the feed is exhausted (`nextTag = none`). -/
def sExhausted : FeedState :=
  feedRun initFeedState
    [FeedEvent.mountLoad, FeedEvent.complete (FetchResult.success [] none)]

/-- A state whose busy flag is set, with a request in flight. -/
def sBusy : FeedState :=
  { content := [], nextTag := some "c1", isLoading := true,
    inFlight := 1, requests := [mkParams none], log := [] }

/-- A recorder state holding a previously recorded path. -/
noncomputable def gpsDemo : GpsState :=
  { recordedPath := [⟨3, 101, 0, false⟩], isRecording := false,
    hasPathLayer := true, watchActive := false, message := "prior session" }

/- ---------------------------------------------------------------------
   Feed loader: lemmas
--------------------------------------------------------------------- -/

/-- When the cursor is `null`, a scroll or sentinel event leaves the
state untouched: both trigger sites test `nextTag` against `null`
before calling `loadContent`. -/
theorem feedStep_trigger_exhausted (s : FeedState) (h : s.nextTag = none)
    (e : FeedEvent) (he : e.isTrigger = true) : feedStep s e = s := by
  cases e with
  | scroll st vh fh =>
      simp only [feedStep, handleScroll]
      rw [if_pos (Or.inr h)]
  | sentinel v =>
      simp only [feedStep, sentinelCallback]
      rw [if_neg]
      rintro ⟨-, -, hne⟩
      exact hne h
  | mountLoad => simp [FeedEvent.isTrigger] at he
  | complete r => simp [FeedEvent.isTrigger] at he

/-- Each event appends exactly its `responseChunk` to the content list. -/
theorem content_feedStep (s : FeedState) (e : FeedEvent) :
    (feedStep s e).content = s.content ++ responseChunk s e := by
  cases e with
  | scroll st vh fh =>
      simp only [feedStep, handleScroll, loadContentStep, responseChunk]
      split_ifs <;> simp
  | sentinel v =>
      simp only [feedStep, sentinelCallback, loadContentStep, responseChunk]
      split_ifs <;> simp
  | mountLoad =>
      simp only [feedStep, loadContentStep, responseChunk]
      split_ifs <;> simp
  | complete r =>
      cases r with
      | success items hdr =>
          simp only [feedStep, completeFetch, responseChunk]
          split_ifs <;> simp
      | failure =>
          simp only [feedStep, completeFetch, responseChunk]
          split_ifs <;> simp

/-- The normalized `tag` header is never the empty string. -/
theorem normalizeTag_ne_empty (hdr : Option String) : normalizeTag hdr ≠ some "" := by
  cases hdr with
  | none => simp [normalizeTag]
  | some t => by_cases ht : t = "" <;> simp [normalizeTag, ht]

/-- No event can make the cursor the empty string. -/
theorem tag_ne_empty_feedStep (s : FeedState) (e : FeedEvent)
    (h : s.nextTag ≠ some "") : (feedStep s e).nextTag ≠ some "" := by
  cases e with
  | scroll st vh fh =>
      simp only [feedStep, handleScroll, loadContentStep]
      split_ifs <;> simpa using h
  | sentinel v =>
      simp only [feedStep, sentinelCallback, loadContentStep]
      split_ifs <;> simpa using h
  | mountLoad =>
      simp only [feedStep, loadContentStep]
      split_ifs <;> simpa using h
  | complete r =>
      cases r with
      | success items hdr =>
          simp only [feedStep, completeFetch]
          split_ifs <;> simp [normalizeTag_ne_empty hdr, h]
      | failure =>
          simp only [feedStep, completeFetch]
          split_ifs <;> simpa using h

/-- The cursor is never the empty string along any run. -/
theorem tag_ne_empty_feedRun (s : FeedState) (h : s.nextTag ≠ some "")
    (es : List FeedEvent) : (feedRun s es).nextTag ≠ some "" := by
  induction es generalizing s with
  | nil => exact h
  | cons e tl ih => exact ih (feedStep s e) (tag_ne_empty_feedStep s e h)

/-- In every reachable state the cursor is not the empty string. -/
theorem reachable_tag_ne_empty (s : FeedState) (hs : Reachable s) :
    s.nextTag ≠ some "" := by
  obtain ⟨es, rfl⟩ := hs
  exact tag_ne_empty_feedRun initFeedState (by simp [initFeedState]) es

/-- Issuing a request preserves the single-flight invariant. -/
theorem goodState_loadContentStep (s : FeedState) (h : GoodState s) :
    GoodState (loadContentStep s) := by
  obtain ⟨h1, h2⟩ := h
  unfold loadContentStep
  split_ifs with hg
  · exact ⟨h1, h2⟩
  · have hL : ¬s.isLoading = true := fun hh => hg (Or.inl hh)
    have h0 : s.inFlight = 0 := by
      have hne1 : s.inFlight ≠ 1 := fun hh => hL (h2.mpr hh)
      omega
    exact ⟨by simp [h0], by simp [h0]⟩

/-- Every event preserves the single-flight invariant. -/
theorem goodState_feedStep (s : FeedState) (e : FeedEvent) (h : GoodState s) :
    GoodState (feedStep s e) := by
  cases e with
  | scroll st vh fh =>
      simp only [feedStep, handleScroll]
      split_ifs with h1 h2
      · exact h
      · exact goodState_loadContentStep _ ⟨h.1, h.2⟩
      · exact h
  | sentinel v =>
      simp only [feedStep, sentinelCallback]
      split_ifs with h1
      · exact goodState_loadContentStep _ ⟨h.1, h.2⟩
      · exact h
  | mountLoad => exact goodState_loadContentStep s h
  | complete r =>
      obtain ⟨h1, h2⟩ := h
      cases r with
      | success items hdr =>
          simp only [feedStep, completeFetch]
          split_ifs with hz hempty
          · exact ⟨h1, h2⟩
          · refine ⟨?_, ?_⟩
            · show s.inFlight - 1 ≤ 1
              omega
            · show (false = true) ↔ s.inFlight - 1 = 1
              simp only [Bool.false_eq_true, false_iff]
              omega
          · refine ⟨?_, ?_⟩
            · show s.inFlight - 1 ≤ 1
              omega
            · show (false = true) ↔ s.inFlight - 1 = 1
              simp only [Bool.false_eq_true, false_iff]
              omega
      | failure =>
          simp only [feedStep, completeFetch]
          split_ifs with hz
          · exact ⟨h1, h2⟩
          · refine ⟨?_, ?_⟩
            · show s.inFlight - 1 ≤ 1
              omega
            · show (false = true) ↔ s.inFlight - 1 = 1
              simp only [Bool.false_eq_true, false_iff]
              omega

/-- The single-flight invariant holds along any run. -/
theorem goodState_feedRun (s : FeedState) (h : GoodState s)
    (es : List FeedEvent) : GoodState (feedRun s es) := by
  induction es generalizing s with
  | nil => exact h
  | cons e tl ih => exact ih (feedStep s e) (goodState_feedStep s e h)

/- ---------------------------------------------------------------------
   Claim theorems: feed loader
--------------------------------------------------------------------- -/

/-- C1: once the pagination cursor `nextTag` is `None`, any sequence of
trigger events (scroll events and sentinel intersection events) leaves
the state unchanged and issues no further fetch request: both the
scroll-ratio trigger and the viewport-intersection trigger refuse to
invoke the fetch when the cursor is `None`. -/
theorem C1_no_fetch_after_exhaustion (s : FeedState) (h : s.nextTag = none)
    (es : List FeedEvent) (hes : ∀ e ∈ es, e.isTrigger = true) :
    feedRun s es = s ∧ (feedRun s es).requests = s.requests := by
  have key : feedRun s es = s := by
    induction es with
    | nil => rfl
    | cons e tl ih =>
        have h1 : feedStep s e = s :=
          feedStep_trigger_exhausted s h e (hes e (List.mem_cons_self e tl))
        have h2 : feedRun s (e :: tl) = feedRun (feedStep s e) tl := rfl
        rw [h2, h1]
        exact ih fun e' he' => hes e' (List.mem_cons_of_mem e he')
  exact ⟨key, by rw [key]⟩

/-- C1 witness: from the exhausted state reached by an empty first
response, a scroll event and a sentinel intersection change nothing. -/
theorem C1_witness :
    feedRun sExhausted [FeedEvent.scroll 0 500 600, FeedEvent.sentinel true]
        = sExhausted ∧
      (feedRun sExhausted
          [FeedEvent.scroll 0 500 600, FeedEvent.sentinel true]).requests
        = sExhausted.requests :=
  C1_no_fetch_after_exhaustion sExhausted rfl
    [FeedEvent.scroll 0 500 600, FeedEvent.sentinel true] (by decide)

/-- C2: after any sequence of event-loop events, the displayed item list
is the initial content followed by the concatenation, in arrival order,
of the bodies of all non-empty completed responses: items are only ever
appended at the end, never reordered, removed, or de-duplicated. -/
theorem C2_content_is_concatenation (s : FeedState) (es : List FeedEvent) :
    (feedRun s es).content = s.content ++ consumedItems s es := by
  induction es generalizing s with
  | nil => simp [feedRun, consumedItems]
  | cons e tl ih =>
      have h1 : feedRun s (e :: tl) = feedRun (feedStep s e) tl := rfl
      rw [h1, ih (feedStep s e), content_feedStep]
      simp [consumedItems, List.append_assoc]

/-- C3 counterexample: a completed response with a non-empty item list
whose `tag` header is present but empty does NOT leave the cursor equal
to the header value: the `|| null` normalization collapses it to
`None`. -/
theorem C3_counterexample :
    ([demoItem 0] ≠ ([] : List ContentItem)) ∧
      (feedRun initFeedState
          [FeedEvent.mountLoad,
           FeedEvent.complete (FetchResult.success [demoItem 0] (some ""))]).nextTag
        ≠ some "" := by decide

/-- C3 (amended): after a completed response, the cursor is the
server-supplied header value when the item list is non-empty and the
header is present with a non-empty value; it is `None` when the item
list is non-empty but the header is absent or empty; and it is `None`
when the item list is empty, regardless of any header value. -/
theorem C3_cursor_update (s : FeedState) (hs : s.inFlight ≠ 0)
    (items : List ContentItem) (hdr : Option String) :
    (items ≠ [] → ∀ t, hdr = some t → t ≠ "" →
        (completeFetch (FetchResult.success items hdr) s).nextTag = some t) ∧
    (items ≠ [] → (hdr = none ∨ hdr = some "") →
        (completeFetch (FetchResult.success items hdr) s).nextTag = none) ∧
    (items = [] →
        (completeFetch (FetchResult.success items hdr) s).nextTag = none) := by
  unfold completeFetch
  rw [if_neg hs]
  refine ⟨?_, ?_, ?_⟩
  · intro hne t ht hte
    subst ht
    simp [hne, normalizeTag, hte]
  · intro hne hcase
    rcases hcase with rfl | rfl <;> simp [hne, normalizeTag]
  · intro he
    subst he
    simp

/-- C3 witness: a non-empty response with header `"c1"`, consumed while
a request is in flight, sets the cursor to `"c1"`. -/
theorem C3_witness :
    (completeFetch (FetchResult.success [demoItem 0] (some "c1")) sInFlight).nextTag
      = some "c1" :=
  (C3_cursor_update sInFlight (by decide) [demoItem 0] (some "c1")).1
    (by decide) "c1" rfl (by decide)

/-- C6: when the in-flight request fails in transport, the error is
logged, the busy flag is cleared by the `finally` block, no retry
request is issued, and the item list and cursor are unchanged. -/
theorem C6_transport_failure (s : FeedState) (hs : s.inFlight ≠ 0) :
    (completeFetch FetchResult.failure s).content = s.content ∧
    (completeFetch FetchResult.failure s).nextTag = s.nextTag ∧
    (completeFetch FetchResult.failure s).isLoading = false ∧
    (completeFetch FetchResult.failure s).requests = s.requests ∧
    (completeFetch FetchResult.failure s).inFlight = s.inFlight - 1 ∧
    (completeFetch FetchResult.failure s).log =
      s.log ++ ["[loadContent] Error fetching content"] := by
  unfold completeFetch
  rw [if_neg hs]
  exact ⟨rfl, rfl, rfl, rfl, rfl, rfl⟩

/-- C6 witness: evaluated on the state with the mount request in
flight. -/
theorem C6_witness :
    (completeFetch FetchResult.failure sInFlight).content = sInFlight.content ∧
    (completeFetch FetchResult.failure sInFlight).nextTag = sInFlight.nextTag ∧
    (completeFetch FetchResult.failure sInFlight).isLoading = false ∧
    (completeFetch FetchResult.failure sInFlight).requests = sInFlight.requests ∧
    (completeFetch FetchResult.failure sInFlight).inFlight = sInFlight.inFlight - 1 ∧
    (completeFetch FetchResult.failure sInFlight).log =
      sInFlight.log ++ ["[loadContent] Error fetching content"] :=
  C6_transport_failure sInFlight (by decide)

/-- C7: at most one fetch is in flight in every reachable state, the
busy flag `isLoading` is set exactly while a request is in flight, and
any fetch attempt (scroll trigger, sentinel trigger, or direct
`loadContent` call) arriving while the flag is set performs no request
and changes nothing. -/
theorem C7_single_flight :
    (∀ es : List FeedEvent,
        (feedRun initFeedState es).inFlight ≤ 1 ∧
          ((feedRun initFeedState es).isLoading = true ↔
            (feedRun initFeedState es).inFlight = 1)) ∧
    ∀ (s : FeedState) (e : FeedEvent),
        s.isLoading = true → e.isFetchAttempt = true → feedStep s e = s := by
  constructor
  · intro es
    exact goodState_feedRun initFeedState
      ⟨by simp [initFeedState], by simp [initFeedState]⟩ es
  · intro s e hbusy hatt
    cases e with
    | scroll st vh fh =>
        simp only [feedStep, handleScroll]
        rw [if_pos (Or.inl hbusy)]
    | sentinel v =>
        simp only [feedStep, sentinelCallback]
        rw [if_neg]
        rintro ⟨-, hfl, -⟩
        rw [hbusy] at hfl
        exact Bool.noConfusion hfl
    | mountLoad =>
        simp only [feedStep, loadContentStep]
        rw [if_pos (Or.inl hbusy)]
    | complete r => simp [FeedEvent.isFetchAttempt] at hatt

/-- C7 witness: a concrete run keeps at most one request in flight, and
a sentinel trigger on a busy state is absorbed. -/
theorem C7_witness :
    (feedRun initFeedState [FeedEvent.mountLoad, FeedEvent.sentinel true]).inFlight
        ≤ 1 ∧
      feedStep sBusy (FeedEvent.sentinel true) = sBusy :=
  ⟨(C7_single_flight.1 [FeedEvent.mountLoad, FeedEvent.sentinel true]).1,
   C7_single_flight.2 sBusy (FeedEvent.sentinel true) rfl rfl⟩

/-- C8: whenever a reachable state issues a fetch request, its query
parameters are `refresh=1, type=0, auth=0, per_page=8`, with the `tag`
parameter omitted exactly when the cursor is `None` and equal to the
current cursor value otherwise. -/
theorem C8_request_params (s : FeedState) (hs : Reachable s) (e : FeedEvent)
    (hgrow : (feedStep s e).requests ≠ s.requests) :
    (feedStep s e).requests =
      s.requests ++
        [{ refresh := 1, type := 0, auth := 0, per_page := 8, tag := s.nextTag }] := by
  have htag := reachable_tag_ne_empty s hs
  have hmk : mkParams s.nextTag =
      { refresh := 1, type := 0, auth := 0, per_page := 8, tag := s.nextTag } := by
    cases h : s.nextTag with
    | none => simp [mkParams]
    | some t =>
        have hne : t ≠ "" := by
          rintro rfl
          exact htag h
        simp [mkParams, hne]
  cases e with
  | scroll st vh fh =>
      revert hgrow
      simp only [feedStep, handleScroll, loadContentStep]
      split_ifs <;> intro hgrow <;>
        first
        | exact absurd rfl hgrow
        | simp [hmk]
  | sentinel v =>
      revert hgrow
      simp only [feedStep, sentinelCallback, loadContentStep]
      split_ifs <;> intro hgrow <;>
        first
        | exact absurd rfl hgrow
        | simp [hmk]
  | mountLoad =>
      revert hgrow
      simp only [feedStep, loadContentStep]
      split_ifs <;> intro hgrow <;>
        first
        | exact absurd rfl hgrow
        | simp [hmk]
  | complete r =>
      exfalso
      apply hgrow
      cases r with
      | success items hdr =>
          simp only [feedStep, completeFetch]
          split_ifs <;> simp
      | failure =>
          simp only [feedStep, completeFetch]
          split_ifs <;> simp

/-- C8 witness: after a first response of 8 items with header `"c1"`,
the next request carries `tag=c1`; the very first request (cursor
`None`) omits `tag`. -/
theorem C8_witness :
    (feedStep sAfterFirst (FeedEvent.sentinel true)).requests =
        sAfterFirst.requests ++
          [{ refresh := 1, type := 0, auth := 0, per_page := 8, tag := some "c1" }] ∧
      (feedStep initFeedState FeedEvent.mountLoad).requests =
        initFeedState.requests ++
          [{ refresh := 1, type := 0, auth := 0, per_page := 8, tag := none }] := by
  constructor
  · have h := C8_request_params sAfterFirst
      ⟨[FeedEvent.mountLoad,
        FeedEvent.complete (FetchResult.success items8 (some "c1"))], rfl⟩
      (FeedEvent.sentinel true) (by decide)
    rw [h]
    rfl
  · have h := C8_request_params initFeedState ⟨[], rfl⟩ FeedEvent.mountLoad (by decide)
    rw [h]
    rfl

/-- C10: in every reachable state the cursor is never the empty string
(the `|| null` normalization collapses empty or absent headers to
`null`), so the early-return guard in `loadContent` that tests
`nextTag === ""` never fires: the guard is equivalent to the busy flag
alone, and when the component is not busy `loadContent` issues a fetch
even when the cursor is `None` — exhaustion protection comes solely
from the `null` checks at the two trigger sites. -/
theorem C10_cursor_never_empty_string (s : FeedState) (hs : Reachable s) :
    s.nextTag ≠ some "" ∧
      ((s.isLoading = true ∨ s.nextTag = some "") ↔ s.isLoading = true) ∧
      (s.isLoading = false → (loadContentStep s).inFlight = s.inFlight + 1) := by
  have htag := reachable_tag_ne_empty s hs
  refine ⟨htag, ⟨?_, Or.inl⟩, ?_⟩
  · rintro (h | h)
    · exact h
    · exact absurd h htag
  · intro hL
    have hguard : ¬(s.isLoading = true ∨ s.nextTag = some "") := by
      rintro (h | h)
      · rw [hL] at h
        exact Bool.noConfusion h
      · exact htag h
    unfold loadContentStep
    rw [if_neg hguard]

/-- C10 witness: at the (reachable) initial state the cursor is not the
empty string, and `loadContent` does issue a request there even though
the cursor is `None`. -/
theorem C10_witness :
    initFeedState.nextTag ≠ some "" ∧
      (loadContentStep initFeedState).inFlight = initFeedState.inFlight + 1 :=
  ⟨(C10_cursor_never_empty_string initFeedState ⟨[], rfl⟩).1,
   (C10_cursor_never_empty_string initFeedState ⟨[], rfl⟩).2.2 rfl⟩

/- ---------------------------------------------------------------------
   GPS path recorder: lemmas and claim theorems
--------------------------------------------------------------------- -/

/-- Haversine distance between two points on the equator: for
`0 ≤ x` with `x·π/360 < π/2`, the distance from longitude `0` to
longitude `x` (degrees) is `R` times the angle `x·π/180`. -/
theorem getDistance_equator (x t1 t2 : ℝ) (m1 m2 : Bool) (hx : 0 ≤ x)
    (hx2 : x * Real.pi / 360 < Real.pi / 2) :
    getDistance ⟨0, 0, t1, m1⟩ ⟨0, x, t2, m2⟩ = 6371000 * (x * Real.pi / 180) := by
  have hπ := Real.pi_pos
  have hθ0 : 0 ≤ x * Real.pi / 360 :=
    div_nonneg (mul_nonneg hx (le_of_lt hπ)) (by norm_num)
  have hθπ : x * Real.pi / 360 ≤ Real.pi := le_trans (le_of_lt hx2) (by linarith)
  have hsin : 0 ≤ Real.sin (x * Real.pi / 360) :=
    Real.sin_nonneg_of_nonneg_of_le_pi hθ0 hθπ
  have hcos : 0 < Real.cos (x * Real.pi / 360) :=
    Real.cos_pos_of_mem_Ioo ⟨by linarith, hx2⟩
  have hA : haversineA ⟨0, 0, t1, m1⟩ ⟨0, x, t2, m2⟩ =
      Real.sin (x * Real.pi / 360) ^ 2 := by
    show Real.sin (((0 : ℝ) - 0) * Real.pi / 180 / 2) ^ 2 +
        Real.cos ((0 : ℝ) * Real.pi / 180) * Real.cos ((0 : ℝ) * Real.pi / 180) *
          Real.sin ((x - 0) * Real.pi / 180 / 2) ^ 2 =
        Real.sin (x * Real.pi / 360) ^ 2
    have e0 : ((0 : ℝ) - 0) * Real.pi / 180 / 2 = 0 := by ring
    have e1 : (0 : ℝ) * Real.pi / 180 = 0 := by ring
    have e2 : (x - 0) * Real.pi / 180 / 2 = x * Real.pi / 360 := by ring
    rw [e0, e1, e2, Real.sin_zero, Real.cos_zero]
    ring
  have hmain : getDistance ⟨0, 0, t1, m1⟩ ⟨0, x, t2, m2⟩ =
      6371000 * (2 * atan2 (Real.sqrt (Real.sin (x * Real.pi / 360) ^ 2))
        (Real.sqrt (1 - Real.sin (x * Real.pi / 360) ^ 2))) := by
    unfold getDistance
    rw [hA]
  rw [hmain, Real.sqrt_sq_eq_abs, abs_of_nonneg hsin]
  have h1 : 1 - Real.sin (x * Real.pi / 360) ^ 2 = Real.cos (x * Real.pi / 360) ^ 2 := by
    have := Real.sin_sq_add_cos_sq (x * Real.pi / 360)
    linarith
  rw [h1, Real.sqrt_sq (le_of_lt hcos)]
  unfold atan2
  rw [if_pos hcos, ← Real.tan_eq_sin_div_cos,
    Real.arctan_tan (by linarith) hx2]
  ring

/-- A point 1000 m east of the origin along the equator. -/
theorem getDistance_far :
    getDistance ⟨0, 0, 0, false⟩ ⟨0, 180 / (6371 * Real.pi), 10000, false⟩ = 1000 := by
  have hπ := Real.pi_pos
  have h3 := Real.pi_gt_three
  have hne : Real.pi ≠ 0 := ne_of_gt hπ
  have hx : (0 : ℝ) ≤ 180 / (6371 * Real.pi) := by positivity
  have hx2 : 180 / (6371 * Real.pi) * Real.pi / 360 < Real.pi / 2 := by
    have hval : 180 / (6371 * Real.pi) * Real.pi / 360 = 1 / 12742 := by
      field_simp
      ring
    rw [hval]
    linarith
  rw [getDistance_equator _ _ _ _ _ hx hx2]
  field_simp
  ring

/-- A point 100 m east of the origin along the equator. -/
theorem getDistance_near :
    getDistance ⟨0, 0, 0, false⟩ ⟨0, 18 / (6371 * Real.pi), 10000, false⟩ = 100 := by
  have hπ := Real.pi_pos
  have h3 := Real.pi_gt_three
  have hne : Real.pi ≠ 0 := ne_of_gt hπ
  have hx : (0 : ℝ) ≤ 18 / (6371 * Real.pi) := by positivity
  have hx2 : 18 / (6371 * Real.pi) * Real.pi / 360 < Real.pi / 2 := by
    have hval : 18 / (6371 * Real.pi) * Real.pi / 360 = 1 / 127420 := by
      field_simp
      ring
    rw [hval]
    linarith
  rw [getDistance_equator _ _ _ _ _ hx hx2]
  field_simp
  ring

/-- C4: a non-manual sample arriving while a previous recorded sample
exists is discarded (path unchanged, outlier message) if and only if
its Haversine distance `d` to the previous sample and the elapsed time
`dt` (seconds) satisfy `d/dt > 50` and `d > 50`; otherwise it is
appended to the path. -/
theorem C4_outlier_filter (path : List Coordinate) (lastCoord : Coordinate)
    (hlast : path.getLast? = some lastCoord) (lat lng now : ℝ) :
    (recordCoordinate path lat lng now false = (path, "Skipped GPS outlier") ∨
      recordCoordinate path lat lng now false =
        (path ++ [⟨lat, lng, now, false⟩], "Path recorded")) ∧
    (recordCoordinate path lat lng now false = (path, "Skipped GPS outlier") ↔
      (getDistance lastCoord ⟨lat, lng, now, false⟩ /
          ((now - lastCoord.timestamp) / 1000) > 50 ∧
        getDistance lastCoord ⟨lat, lng, now, false⟩ > 50)) := by
  classical
  have hne : path ++ [(⟨lat, lng, now, false⟩ : Coordinate)] ≠ path := by
    intro hcontra
    have := congrArg List.length hcontra
    simp at this
  unfold recordCoordinate
  rw [hlast]
  simp only [Option.elim]
  rw [if_pos trivial]
  by_cases hc :
      getDistance lastCoord ⟨lat, lng, now, false⟩ /
          ((now - lastCoord.timestamp) / 1000) > 50 ∧
        getDistance lastCoord ⟨lat, lng, now, false⟩ > 50
  · rw [if_pos hc]
    exact ⟨Or.inl rfl, ⟨fun _ => hc, fun _ => rfl⟩⟩
  · rw [if_neg hc]
    refine ⟨Or.inr rfl, ⟨?_, fun h => absurd h hc⟩⟩
    intro hEq
    exfalso
    exact hne (congrArg Prod.fst hEq)

/-- C4 witness: with the previous sample at the origin at time 0 ms, a
sample 10 s later at Haversine distance 1000 m (speed 100 m/s) is
discarded, and a sample 10 s later at distance 100 m (speed 10 m/s) is
accepted. -/
theorem C4_witness :
    recordCoordinate [⟨0, 0, 0, false⟩] 0 (180 / (6371 * Real.pi)) 10000 false
        = ([⟨0, 0, 0, false⟩], "Skipped GPS outlier") ∧
      recordCoordinate [⟨0, 0, 0, false⟩] 0 (18 / (6371 * Real.pi)) 10000 false
        = ([⟨0, 0, 0, false⟩] ++ [⟨0, 18 / (6371 * Real.pi), 10000, false⟩],
            "Path recorded") := by
  have hlast : [(⟨0, 0, 0, false⟩ : Coordinate)].getLast? = some ⟨0, 0, 0, false⟩ := rfl
  constructor
  · apply (C4_outlier_filter [⟨0, 0, 0, false⟩] ⟨0, 0, 0, false⟩ hlast
      0 (180 / (6371 * Real.pi)) 10000).2.mpr
    constructor
    · show getDistance ⟨0, 0, 0, false⟩ ⟨0, 180 / (6371 * Real.pi), 10000, false⟩ /
          ((10000 - (0 : ℝ)) / 1000) > 50
      rw [getDistance_far]
      norm_num
    · show getDistance ⟨0, 0, 0, false⟩ ⟨0, 180 / (6371 * Real.pi), 10000, false⟩ > 50
      rw [getDistance_far]
      norm_num
  · have h := C4_outlier_filter [⟨0, 0, 0, false⟩] ⟨0, 0, 0, false⟩ hlast
      0 (18 / (6371 * Real.pi)) 10000
    rcases h.1 with hskip | hacc
    · exfalso
      have hc := (h.2.mp hskip).1
      rw [show ((⟨0, 0, 0, false⟩ : Coordinate)).timestamp = (0 : ℝ) from rfl,
        getDistance_near] at hc
      norm_num at hc
    · exact hacc

/-- C5: a manual marker sample (`isManual = true`) bypasses the outlier
filter entirely: it is appended to the path regardless of the computed
speed and distance from the previous recorded point. -/
theorem C5_manual_bypasses_filter (path : List Coordinate) (lat lng now : ℝ) :
    recordCoordinate path lat lng now true =
      (path ++ [⟨lat, lng, now, true⟩], "Manual marker dropped") := by
  unfold recordCoordinate
  cases h : path.getLast? with
  | none => simp [Option.elim]
  | some lastCoord => simp [Option.elim]

/-- C9: starting a recording session from the idle state clears the
previously recorded path and removes the previous path layer, before
any new samples are appended. -/
theorem C9_start_clears_path (s : GpsState) (h : s.isRecording = false)
    (geo : Bool) :
    (startTracking geo s).recordedPath = [] ∧
      (startTracking geo s).hasPathLayer = false := by
  unfold startTracking
  rw [h]
  cases geo <;> simp

/-- C9 witness: starting from an idle state holding a prior path. -/
theorem C9_witness :
    (startTracking true gpsDemo).recordedPath = [] ∧
      (startTracking true gpsDemo).hasPathLayer = false :=
  C9_start_clears_path gpsDemo rfl true

end PB
